import Mathlib

/-!
# Bionic-Dog-2.0 — object-following subsystem, shallow embedding

A shallow embedding of `src/features/object_following/` —
`tracking_controller.py`, `object_detector.py` and `following_behavior.py` —
faithful to the Python source:

* Python floats are modelled by exact rationals (`ℚ`); the two square roots
  the code takes (`**0.5` in target selection, `np.sqrt` in
  `calculate_object_position`) are modelled by `Real.sqrt`.
* Python dicts carrying detections are modelled by the structure `TObj`; a
  possibly-missing `'center'` entry is an `Option` (the code defaults it with
  `.get('center', (0, 0))` where it may be absent).
* Mutation of `self` becomes explicit state passing; the wall clock
  (`time.time()`) is an explicit `now : ℚ` argument; a command sent through
  `dog_control_callback` is recorded as a `(time, command)` pair in the
  returned list.
* The user-supplied `dog_control_callback` may raise; where that matters
  (`stop_tracking` inside `emergency_stop`) the callback's raising is an
  explicit boolean parameter and Python's `try`/`except` becomes a test on it.
-/

/-- `TrackingMode` of tracking_controller.py. -/
inductive TrackingMode where
  | follow
  | observe
  | approach
  | maintain_distance
deriving DecidableEq

/-- `DetectionMethod` of object_detector.py. -/
inductive DetectionMethod where
  | color_tracking
  | face_detection
  | yolo_object
  | template_matching
deriving DecidableEq

/-- The command strings the controller passes to `dog_control_callback`:
`'forward'`, `'reverse'`, `'left'`, `'right'`, `'steady'`, `'stop'`,
`'handshake'`. -/
inductive Cmd where
  | forward
  | reverse
  | left
  | right
  | steady
  | stop
  | handshake
deriving DecidableEq

/-- A detection dict as produced by `ObjectDetector._detect_*` and consumed by
`TrackingController` / `FollowingBehavior`: keys `'type'`, `'bbox'`,
`'center'`, `'area'`, `'confidence'`. `center` is an `Option` because the
consumers guard on `'center' not in obj` / default it with
`obj.get('center', (0, 0))`. -/
structure TObj where
  otype : String
  bbox : Option (ℤ × ℤ × ℤ × ℤ)
  center : Option (ℤ × ℤ)
  area : ℚ
  confidence : ℚ
deriving DecidableEq

/-- The mutable attributes of `TrackingController.__init__`. -/
structure TrackState where
  is_tracking : Bool
  target_object : Option TObj
  tracking_mode : TrackingMode
  target_dog : String
  center_threshold : ℚ
  distance_threshold : ℚ
  max_distance : ℚ
  last_command_time : ℚ
  command_interval : ℚ
  pid_kp : ℚ
  pid_ki : ℚ
  pid_kd : ℚ
  pid_error_sum : ℚ
  pid_last_error : ℚ
deriving DecidableEq

/-- The initial values `TrackingController.__init__` assigns. -/
def TrackingController.init : TrackState :=
  { is_tracking := false
    target_object := none
    tracking_mode := TrackingMode.follow
    target_dog := "tom"
    center_threshold := 0.15
    distance_threshold := 0.3
    max_distance := 0.8
    last_command_time := 0
    command_interval := 0.5
    pid_kp := 1.0
    pid_ki := 0.1
    pid_kd := 0.05
    pid_error_sum := 0
    pid_last_error := 0 }

/-- The dict `TrackingController._calculate_position_metrics` returns (empty
dict modelled as `none` by the caller-side `Option`). -/
structure PosMetrics where
  relative_x : ℚ
  relative_y : ℚ
  distance_estimate : ℚ
  area : ℚ
  is_centered_x : Bool
  is_centered_y : Bool
  is_close : Bool
  is_far : Bool
deriving DecidableEq

/-- `TrackingController._calculate_position_metrics`: `{}` when the target has
no `'center'`, otherwise relative position in a hard-coded 640×480 frame and
the derived booleans. `frame_width // 2` is Python floor division on ints,
hence `Int` division here. -/
def calculatePositionMetrics (s : TrackState) (target_object : TObj) :
    Option PosMetrics :=
  match target_object.center with
  | none => none
  | some (center_x, center_y) =>
    let frame_width : ℤ := 640
    let frame_height : ℤ := 480
    let rel_x : ℚ := ((center_x : ℚ) - ((frame_width / 2 : ℤ) : ℚ)) / ((frame_width / 2 : ℤ) : ℚ)
    let rel_y : ℚ := ((center_y : ℚ) - ((frame_height / 2 : ℤ) : ℚ)) / ((frame_height / 2 : ℤ) : ℚ)
    let area := target_object.area
    let distance_estimate : ℚ :=
      1.0 - min (area / ((frame_width : ℚ) * (frame_height : ℚ) * 0.3)) 1.0
    some
      { relative_x := rel_x
        relative_y := rel_y
        distance_estimate := distance_estimate
        area := area
        is_centered_x := decide (|rel_x| < s.center_threshold)
        is_centered_y := decide (|rel_y| < s.center_threshold)
        is_close := decide (distance_estimate < s.distance_threshold)
        is_far := decide (distance_estimate > s.max_distance) }

/-- `TrackingController._send_command_with_timing`: dispatch the command only
when at least `command_interval` has elapsed since `last_command_time`, and
record the dispatch time. -/
def sendCommandWithTiming (s : TrackState) (now : ℚ) (command : Cmd) :
    TrackState × List (ℚ × Cmd) :=
  if now - s.last_command_time ≥ s.command_interval then
    ({ s with last_command_time := now }, [(now, command)])
  else (s, [])

/-- `TrackingController._execute_follow_behavior`. -/
def executeFollowBehavior (s : TrackState) (now : ℚ) (pos_metrics : Option PosMetrics) :
    TrackState × List (ℚ × Cmd) :=
  match pos_metrics with
  | none => (s, [])
  | some pos =>
    if pos.is_far then
      sendCommandWithTiming s now Cmd.forward
    else if pos.is_close then
      sendCommandWithTiming s now Cmd.reverse
    else if !pos.is_centered_x then
      if pos.relative_x > s.center_threshold then
        sendCommandWithTiming s now Cmd.right
      else if pos.relative_x < -s.center_threshold then
        sendCommandWithTiming s now Cmd.left
      else (s, [])
    else
      sendCommandWithTiming s now Cmd.steady

/-- `TrackingController._execute_observe_behavior`. -/
def executeObserveBehavior (s : TrackState) (now : ℚ) (pos_metrics : Option PosMetrics) :
    TrackState × List (ℚ × Cmd) :=
  match pos_metrics with
  | none => (s, [])
  | some pos =>
    if !pos.is_centered_x then
      if pos.relative_x > s.center_threshold then
        sendCommandWithTiming s now Cmd.right
      else if pos.relative_x < -s.center_threshold then
        sendCommandWithTiming s now Cmd.left
      else (s, [])
    else
      sendCommandWithTiming s now Cmd.steady

/-- `TrackingController._execute_approach_behavior`. -/
def executeApproachBehavior (s : TrackState) (now : ℚ) (pos_metrics : Option PosMetrics) :
    TrackState × List (ℚ × Cmd) :=
  match pos_metrics with
  | none => (s, [])
  | some pos =>
    if !pos.is_close then
      if !pos.is_centered_x then
        if pos.relative_x > s.center_threshold then
          sendCommandWithTiming s now Cmd.right
        else if pos.relative_x < -s.center_threshold then
          sendCommandWithTiming s now Cmd.left
        else (s, [])
      else
        sendCommandWithTiming s now Cmd.forward
    else
      sendCommandWithTiming s now Cmd.handshake

/-- `TrackingController._execute_maintain_distance_behavior`: PID state is
updated before any command is attempted, exactly in source order. -/
def executeMaintainDistanceBehavior (s : TrackState) (now : ℚ)
    (pos_metrics : Option PosMetrics) : TrackState × List (ℚ × Cmd) :=
  match pos_metrics with
  | none => (s, [])
  | some pos =>
    let distance_error := s.distance_threshold - pos.distance_estimate
    let s1 := { s with pid_error_sum := s.pid_error_sum + distance_error }
    let error_diff := distance_error - s1.pid_last_error
    let pid_output :=
      s1.pid_kp * distance_error + s1.pid_ki * s1.pid_error_sum + s1.pid_kd * error_diff
    let s2 := { s1 with pid_last_error := distance_error }
    let step1 :=
      if |pid_output| > 0.1 then
        if pid_output > 0 then sendCommandWithTiming s2 now Cmd.forward
        else sendCommandWithTiming s2 now Cmd.reverse
      else (s2, [])
    let s3 := step1.1
    let step2 :=
      if !pos.is_centered_x then
        if pos.relative_x > s3.center_threshold then
          sendCommandWithTiming s3 now Cmd.right
        else if pos.relative_x < -s3.center_threshold then
          sendCommandWithTiming s3 now Cmd.left
        else (s3, [])
      else (s3, [])
    (step2.1, step1.2 ++ step2.2)

/-- `TrackingController._process_tracking_update`: return at once without a
target, otherwise compute metrics and run the current mode's behavior. -/
def processTrackingUpdate (s : TrackState) (now : ℚ) : TrackState × List (ℚ × Cmd) :=
  match s.target_object with
  | none => (s, [])
  | some target =>
    let obj_position := calculatePositionMetrics s target
    match s.tracking_mode with
    | TrackingMode.follow => executeFollowBehavior s now obj_position
    | TrackingMode.observe => executeObserveBehavior s now obj_position
    | TrackingMode.approach => executeApproachBehavior s now obj_position
    | TrackingMode.maintain_distance => executeMaintainDistanceBehavior s now obj_position

/-- `TrackingController._search_for_target`: when over 1.0 s has passed since
the last command, send `'right'` directly through `_send_command` (NOT through
the timing limiter), `time.sleep(0.3)`, send `'stop'`, and record the start
time. -/
def searchForTarget (s : TrackState) (now : ℚ) : TrackState × List (ℚ × Cmd) :=
  if now - s.last_command_time > 1.0 then
    ({ s with last_command_time := now }, [(now, Cmd.right), (now + 0.3, Cmd.stop)])
  else (s, [])

/-- One iteration of `TrackingController._tracking_loop`: process the target
if there is one, else run the search behavior. -/
def trackingLoopBody (s : TrackState) (now : ℚ) : TrackState × List (ℚ × Cmd) :=
  match s.target_object with
  | some _ => processTrackingUpdate s now
  | none => searchForTarget s now

/-- Iterating `_send_command_with_timing` over a sequence of timed command
attempts: the dispatched `(time, command)` pairs. -/
def runTimedCommands (s : TrackState) : List (ℚ × Cmd) → List (ℚ × Cmd)
  | [] => []
  | (t, c) :: rest =>
    let step := sendCommandWithTiming s t c
    step.2 ++ runTimedCommands step.1 rest

/-- A contour as cv2.findContours yields it: the cv2 pipeline itself (HSV
conversion, `inRange` mask, `findContours`) is external image I/O, so a frame
is modelled by the list of contours it produces, each carrying its
`cv2.contourArea` and `cv2.boundingRect`. -/
structure Contour where
  area : ℚ
  x : ℤ
  y : ℤ
  w : ℤ
  h : ℤ
deriving DecidableEq

/-- `ObjectDetector._detect_by_color` after the cv2 pipeline: `[]` when no
`target_color` is configured; otherwise keep each contour whose area is
strictly over 500 and report bbox, center (integer halving as in Python `//`),
area and `confidence = min(area / 5000, 1.0)`. -/
def detectByColor (target_color_set : Bool) (contours : List Contour) : List TObj :=
  if !target_color_set then []
  else
    contours.filterMap fun contour =>
      if contour.area > 500 then
        some
          { otype := "color_object"
            bbox := some (contour.x, contour.y, contour.w, contour.h)
            center := some (contour.x + contour.w / 2, contour.y + contour.h / 2)
            area := contour.area
            confidence := min (contour.area / 5000) 1.0 }
      else none

/-- The dict `ObjectDetector.calculate_object_position` returns (empty dict
modelled as `none`). -/
structure ObjPosition where
  relative_x : ℚ
  relative_y : ℚ
  distance_from_center : ℝ
  frame_position : String

open Classical in
/-- `ObjectDetector.calculate_object_position`: `{}` for a falsy (`None`)
object or one without a `'center'` entry; otherwise the position relative to
the detector's frame centre (`np.sqrt` modelled by `Real.sqrt`). -/
noncomputable def calculateObjectPosition (frame_width frame_height : ℤ)
    (obj : Option TObj) : Option ObjPosition :=
  match obj with
  | none => none
  | some o =>
    match o.center with
    | none => none
    | some (center_x, center_y) =>
      let frame_center_x : ℤ := frame_width / 2
      let frame_center_y : ℤ := frame_height / 2
      let rel_x : ℚ := ((center_x : ℚ) - (frame_center_x : ℚ)) / (frame_center_x : ℚ)
      let rel_y : ℚ := ((center_y : ℚ) - (frame_center_y : ℚ)) / (frame_center_y : ℚ)
      let distance : ℝ := Real.sqrt ((rel_x : ℝ) ^ 2 + (rel_y : ℝ) ^ 2)
      some
        { relative_x := rel_x
          relative_y := rel_y
          distance_from_center := distance
          frame_position := if distance < 0.2 then "center" else "off_center" }

/-- The mutable attributes of `ObjectDetector` that the behavior-level code
reads or writes (camera handle, frame buffer and cv2 detectors are external
I/O and carry no program-visible state beyond these). -/
structure DetectorState where
  detection_method : DetectionMethod
  is_detecting : Bool
  frame_width : ℤ
  frame_height : ℤ
deriving DecidableEq

/-- The initial values `ObjectDetector.__init__` assigns. -/
def ObjectDetector.init : DetectorState :=
  { detection_method := DetectionMethod.color_tracking
    is_detecting := false
    frame_width := 640
    frame_height := 480 }

/-- `ObjectDetector.start_detection`: fails only when already detecting;
otherwise records the method, raises the flag and spawns the detection
thread. -/
def startDetection (d : DetectorState) (method : DetectionMethod) :
    Bool × DetectorState :=
  if d.is_detecting then (false, d)
  else (true, { d with detection_method := method, is_detecting := true })

/-- `ObjectDetector.stop_detection`: lowers the flag (the thread then exits);
`detection_method` is left as it is. -/
def stopDetection (d : DetectorState) : DetectorState :=
  { d with is_detecting := false }

/-- `TrackingController.start_tracking`: fails only when already tracking;
otherwise records dog and mode, raises the flag, resets the PID state and
spawns the tracking thread. -/
def startTracking (c : TrackState) (target_dog : String) (mode : TrackingMode) :
    Bool × TrackState :=
  if c.is_tracking then (false, c)
  else
    (true,
      { c with
        target_dog := target_dog
        tracking_mode := mode
        is_tracking := true
        pid_error_sum := 0
        pid_last_error := 0 })

/-- `TrackingController.stop_tracking`: lowers the flag, joins the thread,
then sends `'stop'` through `dog_control_callback`. The callback is
user-supplied and may raise; `callback_raises` says whether it does, and the
second component reports whether an exception escaped (the flag is already
lowered when it does, since the send comes last). -/
def stopTracking (callback_raises : Bool) (c : TrackState) : TrackState × Bool :=
  ({ c with is_tracking := false }, callback_raises)

/-- The statistics dict of `FollowingBehavior.__init__`. -/
structure FollowStats where
  session_start_time : Option ℚ
  total_detections : ℕ
  successful_follows : ℕ
  lost_target_count : ℕ
deriving DecidableEq

/-- The mutable attributes of `FollowingBehavior.__init__`. -/
structure FollowingState where
  object_detector : DetectorState
  tracking_controller : TrackState
  is_active : Bool
  current_mode : TrackingMode
  target_selection_mode : String
  selected_target_type : String
  stats : FollowStats
deriving DecidableEq

/-- The initial values `FollowingBehavior.__init__` assigns. -/
def FollowingBehavior.init : FollowingState :=
  { object_detector := ObjectDetector.init
    tracking_controller := TrackingController.init
    is_active := false
    current_mode := TrackingMode.follow
    target_selection_mode := "automatic"
    selected_target_type := "face"
    stats :=
      { session_start_time := none
        total_detections := 0
        successful_follows := 0
        lost_target_count := 0 } }

/-- `FollowingBehavior.start_following`: fail at once when already active;
start detection (fail if that fails); start tracking, and if that fails stop
the just-started detection and fail; otherwise raise `is_active`, record the
mode and reset the statistics with the session start time `now`. -/
def startFollowing (st : FollowingState) (target_dog : String)
    (detection_method : DetectionMethod) (tracking_mode : TrackingMode) (now : ℚ) :
    Bool × FollowingState :=
  if st.is_active then (false, st)
  else
    let started_detect := startDetection st.object_detector detection_method
    if !started_detect.1 then (false, { st with object_detector := started_detect.2 })
    else
      let started_track := startTracking st.tracking_controller target_dog tracking_mode
      if !started_track.1 then
        (false,
          { st with
            object_detector := stopDetection started_detect.2
            tracking_controller := started_track.2 })
      else
        (true,
          { st with
            object_detector := started_detect.2
            tracking_controller := started_track.2
            is_active := true
            current_mode := tracking_mode
            stats :=
              { session_start_time := some now
                total_detections := 0
                successful_follows := 0
                lost_target_count := 0 } })

/-- `FollowingBehavior.switch_tracking_mode`: only when active, set both the
behavior's `current_mode` and the controller's `tracking_mode`. -/
def switchTrackingMode (st : FollowingState) (new_mode : TrackingMode) :
    FollowingState :=
  if st.is_active then
    { st with
      current_mode := new_mode
      tracking_controller := { st.tracking_controller with tracking_mode := new_mode } }
  else st

/-- `FollowingBehavior.emergency_stop`: one `try` block runs
`tracking_controller.stop_tracking()`, then `object_detector.stop_detection()`,
then `self.is_active = False`; a raise anywhere in it is caught and logged,
and the statements after the raising one are skipped. `stop_tracking` raises
exactly when the dog-control callback raises on the final `'stop'` send. -/
def emergencyStop (callback_raises : Bool) (st : FollowingState) : FollowingState :=
  let stopped := stopTracking callback_raises st.tracking_controller
  if stopped.2 then { st with tracking_controller := stopped.1 }
  else
    { st with
      tracking_controller := stopped.1
      object_detector := stopDetection st.object_detector
      is_active := false }

/-- The integer under the square root in `_auto_select_target`'s
`center_distance`: squared distance from the object's center to the integer
frame centre `(frame_width // 2, frame_height // 2)`. -/
def centerDistSq (frame_width frame_height : ℤ) (center : ℤ × ℤ) : ℤ :=
  (center.1 - frame_width / 2) ^ 2 + (center.2 - frame_height / 2) ^ 2

/-- The selection score of `FollowingBehavior._auto_select_target` for one
object: `confidence * 0.4 + min(area / 10000, 1.0) * 0.4 +
(1 - center_distance / max_distance) * 0.2`, with `center` defaulted to
`(0, 0)` as `obj.get('center', (0, 0))` does and `**0.5` modelled by
`Real.sqrt`. -/
noncomputable def selectionScore (frame_width frame_height : ℤ) (obj : TObj) : ℝ :=
  let center := obj.center.getD (0, 0)
  let center_distance : ℝ := Real.sqrt ((centerDistSq frame_width frame_height center : ℤ) : ℝ)
  let max_distance : ℝ := Real.sqrt (((frame_width ^ 2 + frame_height ^ 2 : ℤ) : ℝ))
  let normalized_center_distance : ℝ := center_distance / max_distance
  (obj.confidence : ℝ) * 0.4 + min ((obj.area : ℝ) / 10000) 1.0 * 0.4 +
    (1 - normalized_center_distance) * 0.2

open Classical in
/-- The selection loop of `FollowingBehavior._auto_select_target`: starting
from `best_target = None`, `best_score = 0`, take each object whose score is
STRICTLY greater than the best so far. -/
noncomputable def autoSelectLoop (frame_width frame_height : ℤ) :
    List TObj → Option TObj → ℝ → Option TObj
  | [], best_target, _ => best_target
  | obj :: rest, best_target, best_score =>
    if selectionScore frame_width frame_height obj > best_score then
      autoSelectLoop frame_width frame_height rest (some obj)
        (selectionScore frame_width frame_height obj)
    else autoSelectLoop frame_width frame_height rest best_target best_score

/-- The preferred-type filter step of `_auto_select_target`: when a preferred
type is configured and at least one object matches, keep only the matches,
else keep the unfiltered list. -/
def filterByTargetType (selected_target_type : String) (detected_objects : List TObj) :
    List TObj :=
  if selected_target_type ≠ "any" then
    let filtered_objects :=
      detected_objects.filter fun obj => obj.otype == selected_target_type
    if filtered_objects ≠ [] then filtered_objects else detected_objects
  else detected_objects

/-- `FollowingBehavior._auto_select_target`: filter by preferred type, then
run the selection loop with the detector's frame size (`x or 640` in Python
falls back on the default when the attribute is falsy, i.e. 0). -/
noncomputable def autoSelectTarget (d : DetectorState) (selected_target_type : String)
    (detected_objects : List TObj) : Option TObj :=
  let objs := filterByTargetType selected_target_type detected_objects
  let frame_width := if d.frame_width = 0 then 640 else d.frame_width
  let frame_height := if d.frame_height = 0 then 480 else d.frame_height
  autoSelectLoop frame_width frame_height objs none 0

/-! ## Helper lemmas -/

/-- Anything `_send_command_with_timing` dispatches is the requested command
at the requested time. -/
theorem mem_sendCommandWithTiming {s : TrackState} {now : ℚ} {c : Cmd} {p : ℚ × Cmd}
    (hp : p ∈ (sendCommandWithTiming s now c).2) : p = (now, c) := by
  unfold sendCommandWithTiming at hp
  split at hp <;> simp_all

/-! ## Claims -/

/-- C10: `switch_tracking_mode` while `is_active` is false is a no-op — the
whole `FollowingBehavior` state, `current_mode` and the controller's
`tracking_mode` included, is unchanged; while active it sets both to the new
mode. -/
theorem C10_switch_tracking_mode_inactive_noop :
    ∀ (st : FollowingState) (new_mode : TrackingMode),
      (st.is_active = false → switchTrackingMode st new_mode = st) ∧
      (st.is_active = true →
        (switchTrackingMode st new_mode).current_mode = new_mode ∧
        (switchTrackingMode st new_mode).tracking_controller.tracking_mode = new_mode) := by
  intro st new_mode
  constructor <;> intro h <;> simp [switchTrackingMode, h]

/-- C9: a `None` target or one without a `'center'` entry yields the empty
dict from `ObjectDetector.calculate_object_position`; a tracking tick on such
a target computes empty metrics, and every mode's behavior handler returns
without dispatching any command or touching the controller state. -/
theorem C9_missing_center_issues_nothing :
    ∀ (frame_width frame_height : ℤ) (s : TrackState) (now : ℚ),
      calculateObjectPosition frame_width frame_height none = none ∧
      (∀ t : TObj, t.center = none →
        calculateObjectPosition frame_width frame_height (some t) = none) ∧
      (s.target_object = none → processTrackingUpdate s now = (s, [])) ∧
      (∀ t : TObj, s.target_object = some t → t.center = none →
        calculatePositionMetrics s t = none ∧ processTrackingUpdate s now = (s, [])) ∧
      executeFollowBehavior s now none = (s, []) ∧
      executeObserveBehavior s now none = (s, []) ∧
      executeApproachBehavior s now none = (s, []) ∧
      executeMaintainDistanceBehavior s now none = (s, []) := by
  intro fw fh s now
  refine ⟨rfl, ?_, ?_, ?_, rfl, rfl, rfl, rfl⟩
  · intro t ht
    simp [calculateObjectPosition, ht]
  · intro h
    simp [processTrackingUpdate, h]
  · intro t ht hc
    have hm : calculatePositionMetrics s t = none := by
      simp [calculatePositionMetrics, hc]
    refine ⟨hm, ?_⟩
    cases hmode : s.tracking_mode <;>
      simp [processTrackingUpdate, ht, hmode, hm, executeFollowBehavior,
        executeObserveBehavior, executeApproachBehavior, executeMaintainDistanceBehavior]

/-- C4 (the code at the failing input): with an active session whose
dog-control callback raises on the `'stop'` send, `emergency_stop` swallows
the exception but — because the single `try` block wraps all three statements
— skips `object_detector.stop_detection()` and `self.is_active = False`,
leaving `is_active = True` and the detector running; with a non-raising
callback everything is stopped. -/
theorem C4_emergency_stop_not_best_effort :
    (emergencyStop true
        { FollowingBehavior.init with
          is_active := true
          object_detector := { ObjectDetector.init with is_detecting := true }
          tracking_controller := { TrackingController.init with is_tracking := true } }).is_active
        = true ∧
    (emergencyStop true
        { FollowingBehavior.init with
          is_active := true
          object_detector := { ObjectDetector.init with is_detecting := true }
          tracking_controller := { TrackingController.init with is_tracking := true } }).object_detector.is_detecting
        = true ∧
    (emergencyStop false
        { FollowingBehavior.init with
          is_active := true
          object_detector := { ObjectDetector.init with is_detecting := true }
          tracking_controller := { TrackingController.init with is_tracking := true } }).is_active
        = false ∧
    (emergencyStop false
        { FollowingBehavior.init with
          is_active := true
          object_detector := { ObjectDetector.init with is_detecting := true }
          tracking_controller := { TrackingController.init with is_tracking := true } }).object_detector.is_detecting
        = false := by
  simp [emergencyStop, stopTracking, stopDetection]

/-- A `FollowingBehavior` whose tracking controller is already busy while the
behavior itself is inactive and its detector (configured for color tracking)
idle: the state exercising `start_following`'s unwind path. -/
def fbTrackingBusy : FollowingState :=
  { FollowingBehavior.init with
    tracking_controller := { TrackingController.init with is_tracking := true } }

/-- C1, counterexample: on `fbTrackingBusy`, `start_following` with
`FACE_DETECTION` starts the detector, fails to start the controller, unwinds
the detector's active flag and returns failure — but the detector's
`detection_method` now holds the newly requested method instead of its
previous `COLOR_TRACKING`, so partial state DOES survive the unwind. -/
theorem C1_partial_state_counterexample :
    (startFollowing fbTrackingBusy "tom" DetectionMethod.face_detection
        TrackingMode.follow 5).1 = false ∧
    (startFollowing fbTrackingBusy "tom" DetectionMethod.face_detection
        TrackingMode.follow 5).2.object_detector.is_detecting = false ∧
    (startFollowing fbTrackingBusy "tom" DetectionMethod.face_detection
        TrackingMode.follow 5).2.object_detector.detection_method
      ≠ fbTrackingBusy.object_detector.detection_method := by
  simp [startFollowing, startDetection, startTracking, stopDetection, fbTrackingBusy,
    FollowingBehavior.init, ObjectDetector.init, TrackingController.init]

/-- C1 (amended): `start_following` while active returns failure and leaves
everything untouched; if the detector starts but the controller refuses (it
is already tracking), the detector's active flag is unwound, failure is
returned, `is_active` stays false and controller state and statistics are
unchanged — but the detector's configured `detection_method` keeps the newly
requested value. -/
theorem C1_start_following_lockstep :
    ∀ (st : FollowingState) (target_dog : String) (method : DetectionMethod)
      (mode : TrackingMode) (now : ℚ),
      (st.is_active = true → startFollowing st target_dog method mode now = (false, st)) ∧
      (st.is_active = false → st.object_detector.is_detecting = false →
        st.tracking_controller.is_tracking = true →
        (startFollowing st target_dog method mode now).1 = false ∧
        (startFollowing st target_dog method mode now).2.is_active = false ∧
        (startFollowing st target_dog method mode now).2.object_detector.is_detecting = false ∧
        (startFollowing st target_dog method mode now).2.object_detector.detection_method
          = method ∧
        (startFollowing st target_dog method mode now).2.tracking_controller
          = st.tracking_controller ∧
        (startFollowing st target_dog method mode now).2.stats = st.stats) := by
  intro st target_dog method mode now
  constructor
  · intro h
    simp [startFollowing, h]
  · intro h1 h2 h3
    simp [startFollowing, startDetection, startTracking, stopDetection, h1, h2, h3]

/-- The first command the limiter lets through comes no sooner than
`command_interval` after the initial `last_command_time`. -/
theorem runTimedCommands_head_time :
    ∀ (reqs : List (ℚ × Cmd)) (s : TrackState) (p : ℚ × Cmd),
      (runTimedCommands s reqs).head? = some p →
      s.command_interval ≤ p.1 - s.last_command_time := by
  intro reqs
  induction reqs with
  | nil => intro s p h; simp [runTimedCommands] at h
  | cons q rest ih =>
    intro s p h
    obtain ⟨t, c⟩ := q
    rw [runTimedCommands] at h
    unfold sendCommandWithTiming at h
    split at h
    · next hcond =>
      simp at h
      subst h
      simpa using hcond
    · next hcond =>
      simpa using ih s p (by simpa using h)

/-- C2 (amended): any two CONSECUTIVE commands that
`_send_command_with_timing` actually dispatches are at least
`command_interval` apart, whatever sequence of timed attempts the behaviors
make — so among limiter-routed commands, a window shorter than
`command_interval` holds at most one dispatch. (The search path bypasses the
limiter; see the counterexample.) -/
theorem C2_rate_limiter_spacing :
    ∀ (s : TrackState) (requests : List (ℚ × Cmd)),
      List.Chain' (fun a b : ℚ × Cmd => s.command_interval ≤ b.1 - a.1)
        (runTimedCommands s requests) := by
  intro s requests
  induction requests generalizing s with
  | nil => simp [runTimedCommands]
  | cons q rest ih =>
    obtain ⟨t, c⟩ := q
    rw [runTimedCommands]
    unfold sendCommandWithTiming
    split
    · next hcond =>
      simp only [List.cons_append, List.nil_append]
      rw [List.chain'_cons']
      refine ⟨?_, ih _⟩
      intro y hy
      have := runTimedCommands_head_time rest { s with last_command_time := t } y
        (by simpa using hy)
      simpa using this
    · next hcond =>
      simpa using ih s

/-- C2, counterexample: a controller fresh from `__init__` (so
`command_interval = 0.5`), tracking with no target at time 2.0, runs the
search behavior and dispatches TWO commands — `'right'` at 2.0 and `'stop'`
at 2.3 — only 0.3 s apart, inside a single `command_interval` window, because
`_search_for_target` calls `_send_command` directly instead of
`_send_command_with_timing`. -/
theorem C2_search_two_commands_counterexample :
    (trackingLoopBody { TrackingController.init with is_tracking := true } 2).2 =
      [(2, Cmd.right), (2.3, Cmd.stop)] ∧
    ((2.3 : ℚ) - 2 <
      (trackingLoopBody { TrackingController.init with is_tracking := true } 2).1.command_interval) := by
  norm_num [trackingLoopBody, searchForTarget, TrackingController.init]

/-- A detection exactly at the centre of the 640×480 frame with area 8000. -/
def centeredArea8000 : TObj :=
  { otype := "face", bbox := none, center := some (320, 240), area := 8000,
    confidence := 0.8 }

/-- A follow-mode controller (default thresholds) locked onto
`centeredArea8000`, ready to dispatch (last command at time 0). -/
def followCentered8000 : TrackState :=
  { TrackingController.init with
    is_tracking := true, target_object := some centeredArea8000 }

/-- C3, counterexample: with the target at the exact frame centre and area
8000, the follow tick at time 1 issues `'forward'` and no `'steady'` — area
8000 gives `distance_estimate = 1 - 8000/92160 = 263/288 ≈ 0.913 > 0.8`, so
the target registers as far. -/
theorem C3_centered_target_counterexample :
    (processTrackingUpdate followCentered8000 1).2 = [(1, Cmd.forward)] ∧
    Cmd.steady ∉ (processTrackingUpdate followCentered8000 1).2.map Prod.snd := by
  norm_num [processTrackingUpdate, followCentered8000, centeredArea8000,
    TrackingController.init, calculatePositionMetrics, executeFollowBehavior,
    sendCommandWithTiming]
  decide

/-- C3 (amended): at the frame centre, a follow tick issues `'forward'` for
area 8000 (distance estimate 263/288 > 0.8, i.e. far); `'steady'` is what a
centered target gets only when its distance estimate falls inside the
(0.3, 0.8] band — e.g. area 30000, estimate 259/384 ≈ 0.674. -/
theorem C3_centered_target_forward :
    (processTrackingUpdate followCentered8000 1).2 = [(1, Cmd.forward)] ∧
    (processTrackingUpdate
        { followCentered8000 with
          target_object := some { centeredArea8000 with area := 30000 } } 1).2 =
      [(1, Cmd.steady)] := by
  constructor <;>
    norm_num [processTrackingUpdate, followCentered8000, centeredArea8000,
      TrackingController.init, calculatePositionMetrics, executeFollowBehavior,
      sendCommandWithTiming]

/-- A detection close to the camera but badly off-centre: centre `(600, 240)`
gives `relative_x = 7/8`, area 70000 gives
`distance_estimate = 277/1152 ≈ 0.24 < 0.3` (close). -/
def closeUncenteredObj : TObj :=
  { otype := "face", bbox := none, center := some (600, 240), area := 70000,
    confidence := 0.8 }

/-- An approach-mode controller (default thresholds) locked onto
`closeUncenteredObj`, ready to dispatch (last command at time 0). -/
def approachCloseUncentered : TrackState :=
  { TrackingController.init with
    is_tracking := true
    tracking_mode := TrackingMode.approach
    target_object := some closeUncenteredObj }

/-- The metrics `_calculate_position_metrics` computes for
`closeUncenteredObj` under the default thresholds. -/
def posCloseUncentered : PosMetrics :=
  { relative_x := 7 / 8
    relative_y := 0
    distance_estimate := 277 / 1152
    area := 70000
    is_centered_x := false
    is_centered_y := true
    is_close := true
    is_far := false }

/-- C5, counterexample: the target is NOT centered horizontally
(`is_centered_x = false`, `relative_x = 7/8`), yet the approach tick issues
`'handshake'`, not a turn — the code tests `is_close` first and greets a
close target no matter how far off-centre it is. -/
theorem C5_close_uncentered_counterexample :
    (processTrackingUpdate approachCloseUncentered 1).2 = [(1, Cmd.handshake)] ∧
    (calculatePositionMetrics approachCloseUncentered closeUncenteredObj).map
        PosMetrics.is_centered_x = some false := by
  constructor <;>
    norm_num [processTrackingUpdate, approachCloseUncentered, closeUncenteredObj,
      TrackingController.init, calculatePositionMetrics, executeApproachBehavior,
      sendCommandWithTiming, abs_of_nonneg]

/-- C5 (amended): the approach behavior tests closeness FIRST. When the
target is not close: turn right/left toward it if off-centre, else move
forward. When the target is close: issue the `'handshake'` greeting
regardless of horizontal centering (no turn-first priority). Stated for any
ready-to-dispatch tick with a nonnegative centre tolerance. -/
theorem C5_approach_behavior_priority (s : TrackState) (t : TObj) (now : ℚ)
    (pos : PosMetrics)
    (htarget : s.target_object = some t)
    (hmode : s.tracking_mode = TrackingMode.approach)
    (hpos : calculatePositionMetrics s t = some pos)
    (hthr : 0 ≤ s.center_threshold)
    (htime : now - s.last_command_time ≥ s.command_interval) :
    (pos.is_close = false → pos.is_centered_x = false →
      pos.relative_x > s.center_threshold →
      (processTrackingUpdate s now).2 = [(now, Cmd.right)]) ∧
    (pos.is_close = false → pos.is_centered_x = false →
      pos.relative_x < -s.center_threshold →
      (processTrackingUpdate s now).2 = [(now, Cmd.left)]) ∧
    (pos.is_close = false → pos.is_centered_x = true →
      (processTrackingUpdate s now).2 = [(now, Cmd.forward)]) ∧
    (pos.is_close = true →
      (processTrackingUpdate s now).2 = [(now, Cmd.handshake)]) := by
  have hup : processTrackingUpdate s now = executeApproachBehavior s now (some pos) := by
    simp [processTrackingUpdate, htarget, hmode, hpos]
  refine ⟨?_, ?_, ?_, ?_⟩
  · intro h1 h2 h3
    rw [hup]
    simp [executeApproachBehavior, h1, h2, h3, sendCommandWithTiming, htime]
  · intro h1 h2 h3
    have h4 : ¬(pos.relative_x > s.center_threshold) := by
      intro hgt
      have : -s.center_threshold ≤ s.center_threshold := by linarith
      linarith
    rw [hup]
    simp [executeApproachBehavior, h1, h2, h3, h4, sendCommandWithTiming, htime]
  · intro h1 h2
    rw [hup]
    simp [executeApproachBehavior, h1, h2, sendCommandWithTiming, htime]
  · intro h1
    rw [hup]
    simp [executeApproachBehavior, h1, sendCommandWithTiming, htime]

/-- C5, witness: the amended behavior at the concrete close-but-uncentred
state — the tick issues the greeting. -/
theorem C5_approach_behavior_priority_witness :
    (processTrackingUpdate approachCloseUncentered 1).2 = [(1, Cmd.handshake)] :=
  (C5_approach_behavior_priority approachCloseUncentered closeUncenteredObj 1
      posCloseUncentered rfl rfl
      (by norm_num [calculatePositionMetrics, approachCloseUncentered, closeUncenteredObj,
        TrackingController.init, posCloseUncentered, abs_of_nonneg])
      (by norm_num [approachCloseUncentered, TrackingController.init])
      (by norm_num [approachCloseUncentered, TrackingController.init])).2.2.2 rfl

/-- C8: in observe mode a tick with a target only ever dispatches `'left'`,
`'right'` or `'steady'` — never `'forward'` or `'reverse'`. -/
theorem C8_observe_only_orientation (s : TrackState) (now : ℚ) (p : ℚ × Cmd)
    (hmode : s.tracking_mode = TrackingMode.observe)
    (hp : p ∈ (processTrackingUpdate s now).2) :
    p.2 = Cmd.left ∨ p.2 = Cmd.right ∨ p.2 = Cmd.steady := by
  unfold processTrackingUpdate at hp
  cases htarget : s.target_object with
  | none => rw [htarget] at hp; simp at hp
  | some t =>
    rw [htarget, hmode] at hp
    simp only at hp
    unfold executeObserveBehavior at hp
    cases hm : calculatePositionMetrics s t with
    | none => rw [hm] at hp; simp at hp
    | some pos =>
      rw [hm] at hp
      simp only at hp
      split_ifs at hp with h1 h2 h3
      · have := mem_sendCommandWithTiming hp
        subst this
        right; left; rfl
      · have := mem_sendCommandWithTiming hp
        subst this
        left; rfl
      · simp at hp
      · have := mem_sendCommandWithTiming hp
        subst this
        right; right; rfl

/-- C8, witness: a centered observe-mode target at dispatch time yields
exactly the `'steady'` dispatch, and that command is one of the allowed
three. -/
theorem C8_observe_only_orientation_witness :
    (1, Cmd.steady) ∈
      (processTrackingUpdate
        { TrackingController.init with
          is_tracking := true
          tracking_mode := TrackingMode.observe
          target_object := some centeredArea8000 } 1).2 ∧
    (Cmd.steady = Cmd.left ∨ Cmd.steady = Cmd.right ∨ Cmd.steady = Cmd.steady) := by
  have hmem : (1, Cmd.steady) ∈
      (processTrackingUpdate
        { TrackingController.init with
          is_tracking := true
          tracking_mode := TrackingMode.observe
          target_object := some centeredArea8000 } 1).2 := by
    norm_num [processTrackingUpdate, centeredArea8000, TrackingController.init,
      calculatePositionMetrics, executeObserveBehavior, sendCommandWithTiming]
  exact ⟨hmem, C8_observe_only_orientation _ 1 (1, Cmd.steady) rfl hmem⟩

/-- C6, counterexample: a contour with area EXACTLY 500 — which satisfies
"area ≥ 500 px²" — is dropped by `_detect_by_color`, whose filter is the
strict `area > 500`. -/
theorem C6_area_exactly_500_dropped :
    detectByColor true [{ area := 500, x := 0, y := 0, w := 40, h := 30 }] = [] ∧
    ((500 : ℚ) ≥ 500) := by
  norm_num [detectByColor]

/-- C6 (amended): every object `_detect_by_color` reports has area STRICTLY
over 500 (hence ≥ 500) and `confidence = min(area / 5000, 1.0)`, equal to 1
whenever area ≥ 5000; and every contour with area strictly over 500 px² is
reported (contours at exactly 500 are dropped). -/
theorem C6_color_detection_area_confidence :
    ∀ (target_color_set : Bool) (contours : List Contour) (o : TObj),
      (o ∈ detectByColor target_color_set contours →
        500 < o.area ∧ o.confidence = min (o.area / 5000) 1.0 ∧
        (5000 ≤ o.area → o.confidence = 1)) ∧
      (∀ c ∈ contours, target_color_set = true → 500 < c.area →
        ({ otype := "color_object", bbox := some (c.x, c.y, c.w, c.h),
           center := some (c.x + c.w / 2, c.y + c.h / 2), area := c.area,
           confidence := min (c.area / 5000) 1.0 } : TObj) ∈
          detectByColor target_color_set contours) := by
  intro tc cs o
  constructor
  · intro hm
    unfold detectByColor at hm
    split at hm
    · simp at hm
    · rw [List.mem_filterMap] at hm
      obtain ⟨c, hc, hfc⟩ := hm
      split at hfc
      · next hgt =>
        rw [Option.some_inj] at hfc
        subst hfc
        refine ⟨hgt, rfl, ?_⟩
        intro hbig
        have h1 : (1 : ℚ) ≤ c.area / 5000 := by
          rw [le_div_iff₀ (by norm_num : (0:ℚ) < 5000)]
          linarith
        norm_num [min_eq_right h1]
      · exact absurd hfc (by simp)
  · intro c hc htc hgt
    subst htc
    unfold detectByColor
    simp only [Bool.not_true, Bool.false_eq_true, if_false]
    rw [List.mem_filterMap]
    exact ⟨c, hc, by rw [if_pos hgt]⟩

open Classical in
/-- Unfolding `autoSelectLoop` on the empty list. -/
theorem autoSelectLoop_nil (fw fh : ℤ) (best : Option TObj) (sc : ℝ) :
    autoSelectLoop fw fh [] best sc = best := by
  rw [autoSelectLoop]

open Classical in
/-- Unfolding one step of `autoSelectLoop`. -/
theorem autoSelectLoop_cons (fw fh : ℤ) (o : TObj) (rest : List TObj)
    (best : Option TObj) (sc : ℝ) :
    autoSelectLoop fw fh (o :: rest) best sc =
      if selectionScore fw fh o > sc then
        autoSelectLoop fw fh rest (some o) (selectionScore fw fh o)
      else autoSelectLoop fw fh rest best sc := by
  rw [autoSelectLoop]

/-- In the default 640×480 frame any candidate with an in-frame centre,
nonnegative area and nonnegative confidence scores strictly above the loop's
initial `best_score = 0` (its centre-closeness term alone contributes at
least 0.1). -/
theorem selectionScore_pos (o : TObj) (p : ℤ × ℤ) (hc : o.center = some p)
    (hx0 : 0 ≤ p.1) (hx : p.1 ≤ 640) (hy0 : 0 ≤ p.2) (hy : p.2 ≤ 480)
    (ha : 0 ≤ o.area) (hconf : 0 ≤ o.confidence) :
    0 < selectionScore 640 480 o := by
  simp only [selectionScore, hc, Option.getD_some]
  have hsqz : centerDistSq 640 480 p ≤ 160000 := by
    unfold centerDistSq
    have e1 : (640 : ℤ) / 2 = 320 := by norm_num
    have e2 : (480 : ℤ) / 2 = 240 := by norm_num
    rw [e1, e2]
    have h1 : 0 ≤ p.1 * (640 - p.1) := mul_nonneg hx0 (by linarith)
    have h2 : 0 ≤ p.2 * (480 - p.2) := mul_nonneg hy0 (by linarith)
    nlinarith [h1, h2]
  have hsq : ((centerDistSq 640 480 p : ℤ) : ℝ) ≤ 160000 := by exact_mod_cast hsqz
  have hd : Real.sqrt ((centerDistSq 640 480 p : ℤ) : ℝ) ≤ 400 := by
    calc Real.sqrt ((centerDistSq 640 480 p : ℤ) : ℝ) ≤ Real.sqrt 160000 :=
          Real.sqrt_le_sqrt hsq
    _ = 400 := by
        rw [show (160000 : ℝ) = 400 ^ 2 by norm_num,
          Real.sqrt_sq (by norm_num : (0:ℝ) ≤ 400)]
  have hM : Real.sqrt (((640 ^ 2 + 480 ^ 2 : ℤ) : ℝ)) = 800 := by
    have he : (((640 ^ 2 + 480 ^ 2 : ℤ) : ℝ)) = 640000 := by norm_num
    rw [he, show (640000 : ℝ) = 800 ^ 2 by norm_num,
      Real.sqrt_sq (by norm_num : (0:ℝ) ≤ 800)]
  rw [hM]
  have hnd : Real.sqrt ((centerDistSq 640 480 p : ℤ) : ℝ) / 800 ≤ 1 / 2 := by
    rw [div_le_iff₀ (by norm_num : (0:ℝ) < 800)]
    linarith
  have hconf' : (0 : ℝ) ≤ (o.confidence : ℝ) := by exact_mod_cast hconf
  have hmin : (0 : ℝ) ≤ min ((o.area : ℝ) / 10000) 1.0 := by
    refine le_min ?_ (by norm_num)
    have : (0 : ℝ) ≤ (o.area : ℝ) := by exact_mod_cast ha
    positivity
  linarith

/-- Raising only the confidence strictly raises the selection score. -/
theorem selectionScore_confidence_strict_mono (fw fh : ℤ) (o : TObj) {c₁ c₂ : ℚ}
    (h : c₁ < c₂) :
    selectionScore fw fh { o with confidence := c₁ } <
      selectionScore fw fh { o with confidence := c₂ } := by
  simp only [selectionScore]
  have hcast : (c₁ : ℝ) < (c₂ : ℝ) := by exact_mod_cast h
  linarith

/-- C7: the selection score is monotone (non-decreasing) in confidence, in
`min(area, 10000)`, and in closeness to the frame centre (it does not
increase when the squared centre distance grows); between two in-frame
candidates differing only in confidence the higher-confidence one is
selected whichever comes first; and of two equal-score candidates (score
above the initial 0) the first-seen one is kept, since the comparison is
strict. -/
theorem C7_selection_score_and_ties :
    (∀ (fw fh : ℤ) (o : TObj) (c₁ c₂ : ℚ), c₁ ≤ c₂ →
      selectionScore fw fh { o with confidence := c₁ } ≤
        selectionScore fw fh { o with confidence := c₂ }) ∧
    (∀ (fw fh : ℤ) (o : TObj) (a₁ a₂ : ℚ), min a₁ 10000 ≤ min a₂ 10000 →
      selectionScore fw fh { o with area := a₁ } ≤
        selectionScore fw fh { o with area := a₂ }) ∧
    (∀ (fw fh : ℤ) (o : TObj) (p₁ p₂ : ℤ × ℤ),
      centerDistSq fw fh p₁ ≤ centerDistSq fw fh p₂ →
      selectionScore fw fh { o with center := some p₂ } ≤
        selectionScore fw fh { o with center := some p₁ }) ∧
    (∀ (o : TObj) (c₁ c₂ : ℚ) (p : ℤ × ℤ), o.center = some p →
      0 ≤ p.1 → p.1 ≤ 640 → 0 ≤ p.2 → p.2 ≤ 480 → 0 ≤ o.area → 0 ≤ c₁ → c₁ < c₂ →
      autoSelectLoop 640 480
          [{ o with confidence := c₁ }, { o with confidence := c₂ }] none 0 =
        some { o with confidence := c₂ } ∧
      autoSelectLoop 640 480
          [{ o with confidence := c₂ }, { o with confidence := c₁ }] none 0 =
        some { o with confidence := c₂ }) ∧
    (∀ (o₁ o₂ : TObj), selectionScore 640 480 o₁ = selectionScore 640 480 o₂ →
      0 < selectionScore 640 480 o₁ →
      autoSelectLoop 640 480 [o₁, o₂] none 0 = some o₁) := by
  refine ⟨?_, ?_, ?_, ?_, ?_⟩
  · intro fw fh o c₁ c₂ h
    simp only [selectionScore]
    have hcast : (c₁ : ℝ) ≤ (c₂ : ℝ) := by exact_mod_cast h
    linarith
  · intro fw fh o a₁ a₂ h
    simp only [selectionScore]
    have k : ∀ a : ℚ, min ((a : ℝ) / 10000) 1.0 = ((min a 10000 : ℚ) : ℝ) / 10000 := by
      intro a
      rcases le_total a 10000 with hle | hle
      · have h1 : ((a : ℝ) / 10000) ≤ 1.0 := by
          rw [div_le_iff₀ (by norm_num : (0:ℝ) < 10000)]
          norm_num
          exact_mod_cast hle
        rw [min_eq_left h1, min_eq_left hle]
      · have h1 : (1.0 : ℝ) ≤ (a : ℝ) / 10000 := by
          rw [le_div_iff₀ (by norm_num : (0:ℝ) < 10000)]
          norm_num
          exact_mod_cast hle
        rw [min_eq_right h1, min_eq_right hle]
        norm_num
    have key : min ((a₁ : ℝ) / 10000) 1.0 ≤ min ((a₂ : ℝ) / 10000) 1.0 := by
      rw [k a₁, k a₂]
      have hc : ((min a₁ 10000 : ℚ) : ℝ) ≤ ((min a₂ 10000 : ℚ) : ℝ) := by exact_mod_cast h
      linarith
    linarith
  · intro fw fh o p₁ p₂ h
    simp only [selectionScore, Option.getD_some]
    have hM0 : 0 ≤ Real.sqrt (((fw ^ 2 + fh ^ 2 : ℤ) : ℝ)) := Real.sqrt_nonneg _
    have hs : Real.sqrt ((centerDistSq fw fh p₁ : ℤ) : ℝ) ≤
        Real.sqrt ((centerDistSq fw fh p₂ : ℤ) : ℝ) :=
      Real.sqrt_le_sqrt (by exact_mod_cast h)
    rcases eq_or_lt_of_le hM0 with h0 | hpos
    · rw [← h0]
      simp
    · have hdiv : Real.sqrt ((centerDistSq fw fh p₁ : ℤ) : ℝ) /
          Real.sqrt (((fw ^ 2 + fh ^ 2 : ℤ) : ℝ)) ≤
          Real.sqrt ((centerDistSq fw fh p₂ : ℤ) : ℝ) /
          Real.sqrt (((fw ^ 2 + fh ^ 2 : ℤ) : ℝ)) :=
        (div_le_div_iff_of_pos_right hpos).mpr hs
      linarith
  · intro o c₁ c₂ p hc hx0 hx hy0 hy ha hc1 hlt
    have hcc : ({ o with confidence := c₁ } : TObj).center = some p := hc
    have hcc2 : ({ o with confidence := c₂ } : TObj).center = some p := hc
    have hpos₁ : 0 < selectionScore 640 480 { o with confidence := c₁ } :=
      selectionScore_pos _ p hcc hx0 hx hy0 hy ha hc1
    have hpos₂ : 0 < selectionScore 640 480 { o with confidence := c₂ } :=
      selectionScore_pos _ p hcc2 hx0 hx hy0 hy ha (le_of_lt (lt_of_le_of_lt hc1 hlt))
    have hscore : selectionScore 640 480 { o with confidence := c₁ } <
        selectionScore 640 480 { o with confidence := c₂ } :=
      selectionScore_confidence_strict_mono 640 480 o hlt
    constructor
    · rw [autoSelectLoop_cons, if_pos hpos₁, autoSelectLoop_cons, if_pos hscore,
        autoSelectLoop_nil]
    · rw [autoSelectLoop_cons, if_pos hpos₂, autoSelectLoop_cons,
        if_neg (not_lt.mpr hscore.le), autoSelectLoop_nil]
  · intro o₁ o₂ heq hpos
    rw [autoSelectLoop_cons, if_pos hpos, autoSelectLoop_cons,
      if_neg (by rw [heq]; exact lt_irrefl _), autoSelectLoop_nil]
